import Mathlib

/-!
Verification of the bymr-api client SDK's state-reconciliation and
mutation-delta protocol, shallowly embedded from `src/bymr_api`
(`models.py` and `client.py`).

Python dictionaries and JSON documents are modelled by the inductive type
`JVal`; a Python `dict` is an association list of string keys with
first-occurrence lookup (every dict the code builds has unique keys).
Python code that can raise is embedded into `Option`/`Except`.
-/

set_option maxHeartbeats 2000000

/-- A dynamic (JSON-like) Python value. -/
inductive JVal where
  | null : JVal
  | bool : Bool → JVal
  | int : Int → JVal
  | str : String → JVal
  | arr : List JVal → JVal
  | obj : List (String × JVal) → JVal

mutual

def JVal.decEq : (a b : JVal) → Decidable (a = b)
  | .null, .null => isTrue rfl
  | .null, .bool _ => isFalse nofun
  | .null, .int _ => isFalse nofun
  | .null, .str _ => isFalse nofun
  | .null, .arr _ => isFalse nofun
  | .null, .obj _ => isFalse nofun
  | .bool _, .null => isFalse nofun
  | .bool a, .bool b =>
      if h : a = b then isTrue (by rw [h]) else isFalse (fun he => h (by injection he))
  | .bool _, .int _ => isFalse nofun
  | .bool _, .str _ => isFalse nofun
  | .bool _, .arr _ => isFalse nofun
  | .bool _, .obj _ => isFalse nofun
  | .int _, .null => isFalse nofun
  | .int _, .bool _ => isFalse nofun
  | .int a, .int b =>
      if h : a = b then isTrue (by rw [h]) else isFalse (fun he => h (by injection he))
  | .int _, .str _ => isFalse nofun
  | .int _, .arr _ => isFalse nofun
  | .int _, .obj _ => isFalse nofun
  | .str _, .null => isFalse nofun
  | .str _, .bool _ => isFalse nofun
  | .str _, .int _ => isFalse nofun
  | .str a, .str b =>
      if h : a = b then isTrue (by rw [h]) else isFalse (fun he => h (by injection he))
  | .str _, .arr _ => isFalse nofun
  | .str _, .obj _ => isFalse nofun
  | .arr _, .null => isFalse nofun
  | .arr _, .bool _ => isFalse nofun
  | .arr _, .int _ => isFalse nofun
  | .arr _, .str _ => isFalse nofun
  | .arr xs, .arr ys =>
      match JVal.decEqList xs ys with
      | isTrue h => isTrue (by rw [h])
      | isFalse h => isFalse (fun he => h (by injection he))
  | .arr _, .obj _ => isFalse nofun
  | .obj _, .null => isFalse nofun
  | .obj _, .bool _ => isFalse nofun
  | .obj _, .int _ => isFalse nofun
  | .obj _, .str _ => isFalse nofun
  | .obj _, .arr _ => isFalse nofun
  | .obj xs, .obj ys =>
      match JVal.decEqObj xs ys with
      | isTrue h => isTrue (by rw [h])
      | isFalse h => isFalse (fun he => h (by injection he))

def JVal.decEqList : (a b : List JVal) → Decidable (a = b)
  | [], [] => isTrue rfl
  | [], _ :: _ => isFalse nofun
  | _ :: _, [] => isFalse nofun
  | x :: xs, y :: ys =>
      match JVal.decEq x y, JVal.decEqList xs ys with
      | isTrue h1, isTrue h2 => isTrue (by rw [h1, h2])
      | isFalse h1, _ => isFalse (fun he => h1 (by injection he))
      | isTrue _, isFalse h2 => isFalse (fun he => h2 (by injection he))

def JVal.decEqObj : (a b : List (String × JVal)) → Decidable (a = b)
  | [], [] => isTrue rfl
  | [], _ :: _ => isFalse nofun
  | _ :: _, [] => isFalse nofun
  | (k, v) :: xs, (k', v') :: ys =>
      if h1 : k = k' then
        match JVal.decEq v v', JVal.decEqObj xs ys with
        | isTrue h2, isTrue h3 => isTrue (by rw [h1, h2, h3])
        | isFalse h2, _ =>
            isFalse (fun he => by injection he with h _; exact h2 (congrArg Prod.snd h))
        | isTrue _, isFalse h3 => isFalse (fun he => h3 (by injection he))
      else isFalse (fun he => by injection he with h _; exact h1 (congrArg Prod.fst h))

end

instance : DecidableEq JVal := JVal.decEq

/-- First binding of key `k` in a Python dict. -/
def lookup (d : List (String × JVal)) (k : String) : Option JVal :=
  match d with
  | [] => none
  | (k', v) :: rest => if k' = k then some v else lookup rest k

/-- Python `d.get(k, dflt)`. -/
def getD (d : List (String × JVal)) (k : String) (dflt : JVal) : JVal :=
  match lookup d k with
  | some v => v
  | none => dflt

/-- Python `d[k] = v` on a dict: overwrite in place, or append a new binding. -/
def dictInsert (d : List (String × JVal)) (k : String) (v : JVal) :
    List (String × JVal) :=
  match d with
  | [] => [(k, v)]
  | (k', v') :: rest => if k' = k then (k, v) :: rest else (k', v') :: dictInsert rest k v

/-! ## The nested dataclasses of `models.py`

Each dataclass becomes a structure whose attributes hold dynamic values;
its `from_dict` returns `none` exactly where the Python method raises
(a non-dict argument), and its `to_dict` rebuilds the wire dictionary in
source field order. -/

/-- Game resources dataclass: four counters and four capacities. -/
structure Resources where
  r1 : JVal
  r2 : JVal
  r3 : JVal
  r4 : JVal
  r1max : JVal
  r2max : JVal
  r3max : JVal
  r4max : JVal
deriving DecidableEq

/-- Dataclass defaults: counters 0, capacities 10000. -/
def Resources.default : Resources :=
  ⟨.int 0, .int 0, .int 0, .int 0, .int 10000, .int 10000, .int 10000, .int 10000⟩

/-- Resources.from_dict. -/
def Resources.fromDict : JVal → Option Resources
  | .obj d => some
      { r1 := getD d "r1" (.int 0), r2 := getD d "r2" (.int 0),
        r3 := getD d "r3" (.int 0), r4 := getD d "r4" (.int 0),
        r1max := getD d "r1max" (.int 10000), r2max := getD d "r2max" (.int 10000),
        r3max := getD d "r3max" (.int 10000), r4max := getD d "r4max" (.int 10000) }
  | _ => none

/-- Resources.to_dict (asdict, declared field order). -/
def Resources.toDict (r : Resources) : JVal :=
  .obj [("r1", r.r1), ("r2", r.r2), ("r3", r.r3), ("r4", r.r4),
        ("r1max", r.r1max), ("r2max", r.r2max), ("r3max", r.r3max), ("r4max", r.r4max)]

/-- Building dataclass: four required constructor arguments, the rest optional. -/
structure Building where
  id : JVal
  t : JVal
  X : JVal
  Y : JVal
  l : Option JVal
  st : Option JVal
  cP : Option JVal
  rCP : Option JVal
  pr : Option JVal
  cU : Option JVal
  rPS : Option JVal
  mq : Option JVal
  rIP : Option JVal
  upl : Option JVal
  upg : Option JVal
  cB : Option JVal
  fz : Option JVal
  fort : Option JVal
deriving DecidableEq

/-- The keyword names Building's constructor accepts. -/
def Building.kwargNames : List String :=
  ["id", "t", "X", "Y", "l", "st", "cP", "rCP", "pr", "cU", "rPS", "mq",
   "rIP", "upl", "upg", "cB", "fz", "fort"]

/-- Building(**d): none (TypeError) when a required key is missing or an
unexpected keyword appears. -/
def Building.ofKwargs (d : List (String × JVal)) : Option Building :=
  if d.all (fun kv => Building.kwargNames.contains kv.1) then
    match lookup d "id", lookup d "t", lookup d "X", lookup d "Y" with
    | some i, some t, some x, some y =>
        some { id := i, t := t, X := x, Y := y,
               l := lookup d "l", st := lookup d "st", cP := lookup d "cP",
               rCP := lookup d "rCP", pr := lookup d "pr", cU := lookup d "cU",
               rPS := lookup d "rPS", mq := lookup d "mq", rIP := lookup d "rIP",
               upl := lookup d "upl", upg := lookup d "upg", cB := lookup d "cB",
               fz := lookup d "fz", fort := lookup d "fort" }
    | _, _, _, _ => none
  else none

/-- One optional binding of Building.to_dict. -/
def optField (k : String) (v : Option JVal) : List (String × JVal) :=
  match v with
  | some x => [(k, x)]
  | none => []

/-- Building.to_dict: required fields, then each present optional field in
source order; `fort` is never emitted. -/
def Building.toDict (b : Building) : JVal :=
  .obj ([("id", b.id), ("t", b.t), ("X", b.X), ("Y", b.Y)] ++
    optField "l" b.l ++ optField "st" b.st ++ optField "cP" b.cP ++
    optField "rCP" b.rCP ++ optField "pr" b.pr ++ optField "cU" b.cU ++
    optField "rPS" b.rPS ++ optField "mq" b.mq ++ optField "rIP" b.rIP ++
    optField "upl" b.upl ++ optField "upg" b.upg ++ optField "cB" b.cB ++
    optField "fz" b.fz)

/-- BuildingData dataclass: sparse slot-id-to-building mapping. -/
structure BuildingData where
  buildings : List (String × Building)
deriving DecidableEq

/-- Dataclass default: empty building collection. -/
def BuildingData.empty : BuildingData := ⟨[]⟩

/-- BuildingData.from_dict: each value must construct a Building. -/
def BuildingData.fromDict : JVal → Option BuildingData
  | .obj entries =>
      (entries.mapM (fun (kv : String × JVal) =>
        match kv.2 with
        | .obj bd => (Building.ofKwargs bd).map (fun b => (kv.1, b))
        | _ => (none : Option (String × Building)))).map BuildingData.mk
  | _ => none

/-- BuildingData.to_dict. -/
def BuildingData.toDict (bd : BuildingData) : JVal :=
  .obj (bd.buildings.map (fun kv => (kv.1, Building.toDict kv.2)))

/-- AIAttacks dataclass. -/
structure AIAttacks where
  nextAttack : JVal
  sessionsSinceLastAttack : JVal
  lastattack : JVal
  attackPreference : JVal
deriving DecidableEq

/-- The instance BaseData's default factory builds (all zeros). -/
def AIAttacks.default : AIAttacks := ⟨.int 0, .int 0, .int 0, .int 0⟩

/-- AIAttacks.from_dict. -/
def AIAttacks.fromDict : JVal → Option AIAttacks
  | .obj d => some
      { nextAttack := getD d "nextAttack" (.int 0),
        sessionsSinceLastAttack := getD d "sessionsSinceLastAttack" (.int 0),
        lastattack := getD d "lastattack" (.int 0),
        attackPreference := getD d "attackPreference" (.int 0) }
  | _ => none

/-- AIAttacks.to_dict. -/
def AIAttacks.toDict (a : AIAttacks) : JVal :=
  .obj [("nextAttack", a.nextAttack),
        ("sessionsSinceLastAttack", a.sessionsSinceLastAttack),
        ("lastattack", a.lastattack),
        ("attackPreference", a.attackPreference)]

/-- BuildingResources dataclass: a single timestamp attribute. -/
structure BuildingResources where
  t : JVal
deriving DecidableEq

/-- The instance BaseData's default factory builds. -/
def BuildingResources.default : BuildingResources := ⟨.int 0⟩

/-- BuildingResources.from_dict. -/
def BuildingResources.fromDict : JVal → Option BuildingResources
  | .obj d => some ⟨getD d "t" (.int 0)⟩
  | _ => none

/-- BuildingResources.to_dict. -/
def BuildingResources.toDict (b : BuildingResources) : JVal :=
  .obj [("t", b.t)]

/-- PopupData dataclass. -/
structure PopupData where
  popupStates : JVal
  lastDialog : JVal
deriving DecidableEq

/-- Dataclass defaults. -/
def PopupData.default : PopupData := ⟨.obj [], .int 0⟩

/-- PopupData.from_dict. -/
def PopupData.fromDict : JVal → Option PopupData
  | .obj d => some ⟨getD d "popupStates" (.obj []), getD d "lastDialog" (.int 0)⟩
  | _ => none

/-- PopupData.to_dict. -/
def PopupData.toDict (p : PopupData) : JVal :=
  .obj [("popupStates", p.popupStates), ("lastDialog", p.lastDialog)]

/-- Achievement dataclass: completed is wire key c, stats is wire key s. -/
structure Achievement where
  completed : JVal
  stats : JVal
deriving DecidableEq

/-- Dataclass defaults. -/
def Achievement.default : Achievement := ⟨.obj [], .obj []⟩

/-- Achievement.from_dict. -/
def Achievement.fromDict : JVal → Option Achievement
  | .obj d => some ⟨getD d "c" (.obj []), getD d "s" (.obj [])⟩
  | _ => none

/-- Achievement.to_dict. -/
def Achievement.toDict (a : Achievement) : JVal :=
  .obj [("c", a.completed), ("s", a.stats)]

/-- Stats dataclass. -/
structure Stats where
  moga : JVal
  mg : JVal
  updateid_mr3 : JVal
  mob : JVal
  updateid : JVal
  inferno : JVal
  updateid_mr2 : JVal
  mobg : JVal
  mp : JVal
  popupdata : PopupData
  achievements : Achievement
  other : JVal
deriving DecidableEq

/-- Dataclass defaults (updateid_mr2 defaults to 2). -/
def Stats.default : Stats :=
  { moga := .int 0, mg := .int 0, updateid_mr3 := .int 0, mob := .int 0,
    updateid := .int 0, inferno := .int 0, updateid_mr2 := .int 2,
    mobg := .int 0, mp := .int 0, popupdata := PopupData.default,
    achievements := Achievement.default, other := .obj [] }

/-- Stats.from_dict. -/
def Stats.fromDict : JVal → Option Stats
  | .obj d => do
      let pd ← PopupData.fromDict (getD d "popupdata" (.obj []))
      let ach ← Achievement.fromDict (getD d "achievements" (.obj []))
      some { moga := getD d "moga" (.int 0), mg := getD d "mg" (.int 0),
             updateid_mr3 := getD d "updateid_mr3" (.int 0),
             mob := getD d "mob" (.int 0), updateid := getD d "updateid" (.int 0),
             inferno := getD d "inferno" (.int 0),
             updateid_mr2 := getD d "updateid_mr2" (.int 2),
             mobg := getD d "mobg" (.int 0), mp := getD d "mp" (.int 0),
             popupdata := pd, achievements := ach,
             other := getD d "other" (.obj []) }
  | _ => none

/-- Stats.to_dict: asdict order with popupdata and achievements re-serialized. -/
def Stats.toDict (s : Stats) : JVal :=
  .obj [("moga", s.moga), ("mg", s.mg), ("updateid_mr3", s.updateid_mr3),
        ("mob", s.mob), ("updateid", s.updateid), ("inferno", s.inferno),
        ("updateid_mr2", s.updateid_mr2), ("mobg", s.mobg), ("mp", s.mp),
        ("popupdata", PopupData.toDict s.popupdata),
        ("achievements", Achievement.toDict s.achievements),
        ("other", s.other)]

/-- Locker dataclass. -/
structure Locker where
  t : JVal
deriving DecidableEq

/-- Locker.from_dict. -/
def Locker.fromDict : JVal → Option Locker
  | .obj d => some ⟨getD d "t" (.int 0)⟩
  | _ => none

/-- Locker.to_dict. -/
def Locker.toDict (l : Locker) : JVal := .obj [("t", l.t)]

/-- Academy dataclass. -/
structure Academy where
  level : JVal
deriving DecidableEq

/-- Academy.from_dict (level defaults to 1). -/
def Academy.fromDict : JVal → Option Academy
  | .obj d => some ⟨getD d "level" (.int 1)⟩
  | _ => none

/-- Academy.to_dict. -/
def Academy.toDict (a : Academy) : JVal := .obj [("level", a.level)]

/-- The dict comprehension building BaseData.lockerdata. -/
def lockerMapFromDict : JVal → Option (List (String × Locker))
  | .obj entries =>
      entries.mapM (fun (kv : String × JVal) =>
        (Locker.fromDict kv.2).map (fun l => (kv.1, l)))
  | _ => none

/-- The dict comprehension serializing BaseData.lockerdata. -/
def lockerMapToDict (m : List (String × Locker)) : JVal :=
  .obj (m.map (fun kv => (kv.1, Locker.toDict kv.2)))

/-- The dict comprehension building BaseData.academy. -/
def academyMapFromDict : JVal → Option (List (String × Academy))
  | .obj entries =>
      entries.mapM (fun (kv : String × JVal) =>
        (Academy.fromDict kv.2).map (fun a => (kv.1, a)))
  | _ => none

/-- The dict comprehension serializing BaseData.academy. -/
def academyMapToDict (m : List (String × Academy)) : JVal :=
  .obj (m.map (fun kv => (kv.1, Academy.toDict kv.2)))

/-- MonsterData dataclass. -/
structure MonsterData where
  h : JVal
  hcc : JVal
  overdrivetime : JVal
  space : JVal
  saved : JVal
  housed : JVal
  hstage : JVal
  hid : JVal
  finishtime : JVal
  overdrivepower : JVal
  hcount : JVal
deriving DecidableEq

/-- Dataclass defaults (space defaults to 200). -/
def MonsterData.default : MonsterData :=
  { h := .arr [], hcc := .arr [], overdrivetime := .int 0, space := .int 200,
    saved := .int 0, housed := .obj [], hstage := .arr [], hid := .arr [],
    finishtime := .int 0, overdrivepower := .int 0, hcount := .int 0 }

/-- MonsterData.from_dict. -/
def MonsterData.fromDict : JVal → Option MonsterData
  | .obj d => some
      { h := getD d "h" (.arr []), hcc := getD d "hcc" (.arr []),
        overdrivetime := getD d "overdrivetime" (.int 0),
        space := getD d "space" (.int 200), saved := getD d "saved" (.int 0),
        housed := getD d "housed" (.obj []), hstage := getD d "hstage" (.arr []),
        hid := getD d "hid" (.arr []), finishtime := getD d "finishtime" (.int 0),
        overdrivepower := getD d "overdrivepower" (.int 0),
        hcount := getD d "hcount" (.int 0) }
  | _ => none

/-- MonsterData.to_dict. -/
def MonsterData.toDict (m : MonsterData) : JVal :=
  .obj [("h", m.h), ("hcc", m.hcc), ("overdrivetime", m.overdrivetime),
        ("space", m.space), ("saved", m.saved), ("housed", m.housed),
        ("hstage", m.hstage), ("hid", m.hid), ("finishtime", m.finishtime),
        ("overdrivepower", m.overdrivepower), ("hcount", m.hcount)]

/-- MonsterBaiter dataclass. -/
structure MonsterBaiter where
  musk : JVal
  queue : JVal
  attackDir : JVal
deriving DecidableEq

/-- Dataclass defaults. -/
def MonsterBaiter.default : MonsterBaiter := ⟨.int 0, .obj [], .int 0⟩

/-- MonsterBaiter.from_dict. -/
def MonsterBaiter.fromDict : JVal → Option MonsterBaiter
  | .obj d => some
      ⟨getD d "musk" (.int 0), getD d "queue" (.obj []), getD d "attackDir" (.int 0)⟩
  | _ => none

/-- MonsterBaiter.to_dict. -/
def MonsterBaiter.toDict (m : MonsterBaiter) : JVal :=
  .obj [("musk", m.musk), ("queue", m.queue), ("attackDir", m.attackDir)]

/-- Mushroom dataclass. -/
structure Mushroom where
  s : JVal
  l : JVal
deriving DecidableEq

/-- The instance BaseData's default factory builds. -/
def Mushroom.default : Mushroom := ⟨.int 0, .arr []⟩

/-- Mushroom.from_dict. -/
def Mushroom.fromDict : JVal → Option Mushroom
  | .obj d => some ⟨getD d "s" (.int 0), getD d "l" (.arr [])⟩
  | _ => none

/-- Mushroom.to_dict. -/
def Mushroom.toDict (m : Mushroom) : JVal := .obj [("s", m.s), ("l", m.l)]

/-- UserData dataclass: the session descriptor. -/
structure UserData where
  version : JVal
  baseid : JVal
  type : JVal
  lastupdate : JVal
deriving DecidableEq

/-- UserData.to_dict. -/
def UserData.toDict (u : UserData) : List (String × JVal) :=
  [("version", u.version), ("baseid", u.baseid), ("type", u.type),
   ("lastupdate", u.lastupdate)]
/-- The full authoritative Base Record (`models.py` `BaseData`): one field per
dataclass field, plain fields holding raw values and the parsed nested
structures holding their dataclass embeddings. -/
structure BaseData where
  version : JVal
  baseid : JVal
  basesaveid : JVal
  basename : JVal
  lastupdate : JVal
  buildingdata : BuildingData
  buildinghealthdata : JVal
  buildingresources : BuildingResources
  resources : Resources
  damage : JVal
  flinger : JVal
  catapult : JVal
  aiattacks : AIAttacks
  siege : JVal
  attackersiege : JVal
  effects : JVal
  tutorialstage : JVal
  timeplayed : JVal
  basevalue : JVal
  empirevalue : JVal
  points : JVal
  baseseed : JVal
  clienttime : JVal
  researchdata : JVal
  rewards : JVal
  achieved : JVal
  stats : Stats
  inventory : JVal
  lockerdata : List (String × Locker)
  academy : List (String × Academy)
  quests : JVal
  events : JVal
  frontpage : JVal
  monsters : MonsterData
  monsterupdate : JVal
  monsterbaiter : MonsterBaiter
  champion : JVal
  mushrooms : Mushroom
  empiredestroyed : JVal
  worldid : JVal
  event_score : JVal
  chatenabled : JVal
  relationship : JVal
  healtime : JVal
  over : JVal
  protect : JVal
  purchasecomplete : JVal
  seed : JVal
  bookmarked : JVal
  fan : JVal
  emailshared : JVal
  unreadmessages : JVal
  giftsentcount : JVal
  canattack : JVal
  fortifycellid : JVal
  name : JVal
  level : JVal
  destroyed : JVal
  locked : JVal
  usemap : JVal
  credits : JVal
  iresources : Resources
  storedata : JVal
  coords : JVal
  player : JVal
  krallen : JVal
  loot : JVal
  homebase : JVal
  outposts : JVal
  wmstatus : JVal
  chatservers : JVal
  gifts : JVal
  sentinvites : JVal
  sentgifts : JVal
  fbpromos : JVal
  powerups : JVal
  attpowerups : JVal
  fbid : JVal
  cantmovetill : JVal
  attackreport : JVal
  buildingkeydata : JVal
  attacks : JVal
  lootreport : JVal
  attackloot : JVal
  savetemplate : JVal
  updates : JVal
  createtime : JVal
  savetime : JVal
  id : JVal
  baseid_inferno : JVal
  wmid : JVal
  type : JVal
deriving DecidableEq

/-- The Base Record built from an empty dict: the four required constructor
arguments take the defaults of BaseData.from_dict (128, 0, 0, "") and every
other field takes its dataclass default. -/
def BaseData.default : BaseData where
  version := .int 128
  baseid := .int 0
  basesaveid := .int 0
  basename := .str ""
  lastupdate := .int 0
  buildingdata := BuildingData.empty
  buildinghealthdata := .obj []
  buildingresources := BuildingResources.default
  resources := Resources.default
  damage := .int 0
  flinger := .int 1
  catapult := .int 0
  aiattacks := AIAttacks.default
  siege := .null
  attackersiege := .null
  effects := .arr []
  tutorialstage := .int 0
  timeplayed := .int 0
  basevalue := .int 0
  empirevalue := .int 0
  points := .int 0
  baseseed := .int 0
  clienttime := .int 0
  researchdata := .obj []
  rewards := .obj []
  achieved := .arr []
  stats := Stats.default
  inventory := .obj []
  lockerdata := []
  academy := []
  quests := .obj []
  events := .obj []
  frontpage := .obj []
  monsters := MonsterData.default
  monsterupdate := .arr []
  monsterbaiter := MonsterBaiter.default
  champion := .arr []
  mushrooms := Mushroom.default
  empiredestroyed := .int 0
  worldid := .str ""
  event_score := .int 0
  chatenabled := .int 0
  relationship := .int 0
  healtime := .int 0
  over := .int 0
  protect := .int 0
  purchasecomplete := .int 0
  seed := .int 0
  bookmarked := .int 0
  fan := .int 0
  emailshared := .int 0
  unreadmessages := .int 0
  giftsentcount := .int 0
  canattack := .bool false
  fortifycellid := .int 0
  name := .str ""
  level := .int 1
  destroyed := .int 0
  locked := .int 0
  usemap := .int 1
  credits := .int 0
  iresources := Resources.default
  storedata := .obj []
  coords := .obj []
  player := .obj []
  krallen := .obj []
  loot := .obj []
  homebase := .arr []
  outposts := .arr []
  wmstatus := .arr []
  chatservers := .arr []
  gifts := .arr []
  sentinvites := .arr []
  sentgifts := .arr []
  fbpromos := .arr []
  powerups := .arr []
  attpowerups := .arr []
  fbid := .null
  cantmovetill := .null
  attackreport := .null
  buildingkeydata := .obj []
  attacks := .arr []
  lootreport := .obj []
  attackloot := .obj []
  savetemplate := .arr []
  updates := .arr []
  createtime := .int 0
  savetime := .int 0
  id := .int 0
  baseid_inferno := .int 0
  wmid := .int 0
  type := .str "main"

/-- Names of the fields that `BaseData.update_from_dict` stores verbatim
(every field except the eleven parsed nested structures). -/
inductive PlainField where
  | version : PlainField
  | baseid : PlainField
  | basesaveid : PlainField
  | basename : PlainField
  | lastupdate : PlainField
  | buildinghealthdata : PlainField
  | damage : PlainField
  | flinger : PlainField
  | catapult : PlainField
  | siege : PlainField
  | attackersiege : PlainField
  | effects : PlainField
  | tutorialstage : PlainField
  | timeplayed : PlainField
  | basevalue : PlainField
  | empirevalue : PlainField
  | points : PlainField
  | baseseed : PlainField
  | clienttime : PlainField
  | researchdata : PlainField
  | rewards : PlainField
  | achieved : PlainField
  | inventory : PlainField
  | quests : PlainField
  | events : PlainField
  | frontpage : PlainField
  | monsterupdate : PlainField
  | champion : PlainField
  | empiredestroyed : PlainField
  | worldid : PlainField
  | event_score : PlainField
  | chatenabled : PlainField
  | relationship : PlainField
  | healtime : PlainField
  | over : PlainField
  | protect : PlainField
  | purchasecomplete : PlainField
  | seed : PlainField
  | bookmarked : PlainField
  | fan : PlainField
  | emailshared : PlainField
  | unreadmessages : PlainField
  | giftsentcount : PlainField
  | canattack : PlainField
  | fortifycellid : PlainField
  | name : PlainField
  | level : PlainField
  | destroyed : PlainField
  | locked : PlainField
  | usemap : PlainField
  | credits : PlainField
  | storedata : PlainField
  | coords : PlainField
  | player : PlainField
  | krallen : PlainField
  | loot : PlainField
  | homebase : PlainField
  | outposts : PlainField
  | wmstatus : PlainField
  | chatservers : PlainField
  | gifts : PlainField
  | sentinvites : PlainField
  | sentgifts : PlainField
  | fbpromos : PlainField
  | powerups : PlainField
  | attpowerups : PlainField
  | fbid : PlainField
  | cantmovetill : PlainField
  | attackreport : PlainField
  | buildingkeydata : PlainField
  | attacks : PlainField
  | lootreport : PlainField
  | attackloot : PlainField
  | savetemplate : PlainField
  | updates : PlainField
  | createtime : PlainField
  | savetime : PlainField
  | id : PlainField
  | baseid_inferno : PlainField
  | wmid : PlainField
  | type : PlainField
deriving DecidableEq

/-- The response/dict key of a plain field. -/
def PlainField.key : PlainField → String
  | .version => "version"
  | .baseid => "baseid"
  | .basesaveid => "basesaveid"
  | .basename => "basename"
  | .lastupdate => "lastupdate"
  | .buildinghealthdata => "buildinghealthdata"
  | .damage => "damage"
  | .flinger => "flinger"
  | .catapult => "catapult"
  | .siege => "siege"
  | .attackersiege => "attackersiege"
  | .effects => "effects"
  | .tutorialstage => "tutorialstage"
  | .timeplayed => "timeplayed"
  | .basevalue => "basevalue"
  | .empirevalue => "empirevalue"
  | .points => "points"
  | .baseseed => "baseseed"
  | .clienttime => "clienttime"
  | .researchdata => "researchdata"
  | .rewards => "rewards"
  | .achieved => "achieved"
  | .inventory => "inventory"
  | .quests => "quests"
  | .events => "events"
  | .frontpage => "frontpage"
  | .monsterupdate => "monsterupdate"
  | .champion => "champion"
  | .empiredestroyed => "empiredestroyed"
  | .worldid => "worldid"
  | .event_score => "event_score"
  | .chatenabled => "chatenabled"
  | .relationship => "relationship"
  | .healtime => "healtime"
  | .over => "over"
  | .protect => "protect"
  | .purchasecomplete => "purchasecomplete"
  | .seed => "seed"
  | .bookmarked => "bookmarked"
  | .fan => "fan"
  | .emailshared => "emailshared"
  | .unreadmessages => "unreadmessages"
  | .giftsentcount => "giftsentcount"
  | .canattack => "canattack"
  | .fortifycellid => "fortifycellid"
  | .name => "name"
  | .level => "level"
  | .destroyed => "destroyed"
  | .locked => "locked"
  | .usemap => "usemap"
  | .credits => "credits"
  | .storedata => "storedata"
  | .coords => "coords"
  | .player => "player"
  | .krallen => "krallen"
  | .loot => "loot"
  | .homebase => "homebase"
  | .outposts => "outposts"
  | .wmstatus => "wmstatus"
  | .chatservers => "chatservers"
  | .gifts => "gifts"
  | .sentinvites => "sentinvites"
  | .sentgifts => "sentgifts"
  | .fbpromos => "fbpromos"
  | .powerups => "powerups"
  | .attpowerups => "attpowerups"
  | .fbid => "fbid"
  | .cantmovetill => "cantmovetill"
  | .attackreport => "attackreport"
  | .buildingkeydata => "buildingkeydata"
  | .attacks => "attacks"
  | .lootreport => "lootreport"
  | .attackloot => "attackloot"
  | .savetemplate => "savetemplate"
  | .updates => "updates"
  | .createtime => "createtime"
  | .savetime => "savetime"
  | .id => "id"
  | .baseid_inferno => "baseid_inferno"
  | .wmid => "wmid"
  | .type => "type"

/-- Projection of a plain field out of a Base Record. -/
def BaseData.getPlain (b : BaseData) : PlainField → JVal
  | .version => b.version
  | .baseid => b.baseid
  | .basesaveid => b.basesaveid
  | .basename => b.basename
  | .lastupdate => b.lastupdate
  | .buildinghealthdata => b.buildinghealthdata
  | .damage => b.damage
  | .flinger => b.flinger
  | .catapult => b.catapult
  | .siege => b.siege
  | .attackersiege => b.attackersiege
  | .effects => b.effects
  | .tutorialstage => b.tutorialstage
  | .timeplayed => b.timeplayed
  | .basevalue => b.basevalue
  | .empirevalue => b.empirevalue
  | .points => b.points
  | .baseseed => b.baseseed
  | .clienttime => b.clienttime
  | .researchdata => b.researchdata
  | .rewards => b.rewards
  | .achieved => b.achieved
  | .inventory => b.inventory
  | .quests => b.quests
  | .events => b.events
  | .frontpage => b.frontpage
  | .monsterupdate => b.monsterupdate
  | .champion => b.champion
  | .empiredestroyed => b.empiredestroyed
  | .worldid => b.worldid
  | .event_score => b.event_score
  | .chatenabled => b.chatenabled
  | .relationship => b.relationship
  | .healtime => b.healtime
  | .over => b.over
  | .protect => b.protect
  | .purchasecomplete => b.purchasecomplete
  | .seed => b.seed
  | .bookmarked => b.bookmarked
  | .fan => b.fan
  | .emailshared => b.emailshared
  | .unreadmessages => b.unreadmessages
  | .giftsentcount => b.giftsentcount
  | .canattack => b.canattack
  | .fortifycellid => b.fortifycellid
  | .name => b.name
  | .level => b.level
  | .destroyed => b.destroyed
  | .locked => b.locked
  | .usemap => b.usemap
  | .credits => b.credits
  | .storedata => b.storedata
  | .coords => b.coords
  | .player => b.player
  | .krallen => b.krallen
  | .loot => b.loot
  | .homebase => b.homebase
  | .outposts => b.outposts
  | .wmstatus => b.wmstatus
  | .chatservers => b.chatservers
  | .gifts => b.gifts
  | .sentinvites => b.sentinvites
  | .sentgifts => b.sentgifts
  | .fbpromos => b.fbpromos
  | .powerups => b.powerups
  | .attpowerups => b.attpowerups
  | .fbid => b.fbid
  | .cantmovetill => b.cantmovetill
  | .attackreport => b.attackreport
  | .buildingkeydata => b.buildingkeydata
  | .attacks => b.attacks
  | .lootreport => b.lootreport
  | .attackloot => b.attackloot
  | .savetemplate => b.savetemplate
  | .updates => b.updates
  | .createtime => b.createtime
  | .savetime => b.savetime
  | .id => b.id
  | .baseid_inferno => b.baseid_inferno
  | .wmid => b.wmid
  | .type => b.type

/-- The full wire dictionary of BaseData.to_dict, fields in source order. -/
def BaseData.toDict (b : BaseData) : List (String × JVal) :=
  [("version", b.version),
   ("baseid", b.baseid),
   ("basesaveid", b.basesaveid),
   ("basename", b.basename),
   ("lastupdate", b.lastupdate),
   ("buildingdata", BuildingData.toDict b.buildingdata),
   ("buildinghealthdata", b.buildinghealthdata),
   ("buildingresources", BuildingResources.toDict b.buildingresources),
   ("resources", Resources.toDict b.resources),
   ("damage", b.damage),
   ("flinger", b.flinger),
   ("catapult", b.catapult),
   ("aiattacks", AIAttacks.toDict b.aiattacks),
   ("siege", b.siege),
   ("attackersiege", b.attackersiege),
   ("effects", b.effects),
   ("tutorialstage", b.tutorialstage),
   ("timeplayed", b.timeplayed),
   ("basevalue", b.basevalue),
   ("empirevalue", b.empirevalue),
   ("points", b.points),
   ("baseseed", b.baseseed),
   ("clienttime", b.clienttime),
   ("researchdata", b.researchdata),
   ("rewards", b.rewards),
   ("achieved", b.achieved),
   ("stats", Stats.toDict b.stats),
   ("inventory", b.inventory),
   ("lockerdata", lockerMapToDict b.lockerdata),
   ("academy", academyMapToDict b.academy),
   ("quests", b.quests),
   ("events", b.events),
   ("frontpage", b.frontpage),
   ("monsters", MonsterData.toDict b.monsters),
   ("monsterupdate", b.monsterupdate),
   ("monsterbaiter", MonsterBaiter.toDict b.monsterbaiter),
   ("champion", b.champion),
   ("mushrooms", Mushroom.toDict b.mushrooms),
   ("empiredestroyed", b.empiredestroyed),
   ("worldid", b.worldid),
   ("event_score", b.event_score),
   ("chatenabled", b.chatenabled),
   ("relationship", b.relationship),
   ("healtime", b.healtime),
   ("over", b.over),
   ("protect", b.protect),
   ("purchasecomplete", b.purchasecomplete),
   ("seed", b.seed),
   ("bookmarked", b.bookmarked),
   ("fan", b.fan),
   ("emailshared", b.emailshared),
   ("unreadmessages", b.unreadmessages),
   ("giftsentcount", b.giftsentcount),
   ("canattack", b.canattack),
   ("fortifycellid", b.fortifycellid),
   ("name", b.name),
   ("level", b.level),
   ("destroyed", b.destroyed),
   ("locked", b.locked),
   ("usemap", b.usemap),
   ("credits", b.credits),
   ("iresources", Resources.toDict b.iresources),
   ("storedata", b.storedata),
   ("coords", b.coords),
   ("player", b.player),
   ("krallen", b.krallen),
   ("loot", b.loot),
   ("homebase", b.homebase),
   ("outposts", b.outposts),
   ("wmstatus", b.wmstatus),
   ("chatservers", b.chatservers),
   ("gifts", b.gifts),
   ("sentinvites", b.sentinvites),
   ("sentgifts", b.sentgifts),
   ("fbpromos", b.fbpromos),
   ("powerups", b.powerups),
   ("attpowerups", b.attpowerups),
   ("fbid", b.fbid),
   ("cantmovetill", b.cantmovetill),
   ("attackreport", b.attackreport),
   ("buildingkeydata", b.buildingkeydata),
   ("attacks", b.attacks),
   ("lootreport", b.lootreport),
   ("attackloot", b.attackloot),
   ("savetemplate", b.savetemplate),
   ("updates", b.updates),
   ("createtime", b.createtime),
   ("savetime", b.savetime),
   ("id", b.id),
   ("baseid_inferno", b.baseid_inferno),
   ("wmid", b.wmid),
   ("type", b.type)]

/-- Merge a response dict into the record (BaseData.update_from_dict).
Plain fields fall back to the prior value when absent; each parsed nested
structure is rebuilt by its from_dict, with an empty-dict fallback except
for buildingresources and mushrooms, whose fallbacks are rebuilt from the
prior values. A parse failure (a Python exception) is none. -/
def BaseData.updateFromDict (b : BaseData) (data : List (String × JVal)) : Option BaseData := do
  let bdata ← BuildingData.fromDict (getD data "buildingdata" (.obj []))
  let bres ← BuildingResources.fromDict (getD data "buildingresources" (.obj [("t", b.buildingresources.t)]))
  let res ← Resources.fromDict (getD data "resources" (.obj []))
  let aia ← AIAttacks.fromDict (getD data "aiattacks" (.obj []))
  let st ← Stats.fromDict (getD data "stats" (.obj []))
  let lockers ← lockerMapFromDict (getD data "lockerdata" (.obj []))
  let acad ← academyMapFromDict (getD data "academy" (.obj []))
  let mon ← MonsterData.fromDict (getD data "monsters" (.obj []))
  let mbait ← MonsterBaiter.fromDict (getD data "monsterbaiter" (.obj []))
  let mush ← Mushroom.fromDict (getD data "mushrooms" (.obj [("s", b.mushrooms.s), ("l", b.mushrooms.l)]))
  let ires ← Resources.fromDict (getD data "iresources" (.obj []))
  some {
    version := getD data "version" b.version,
    baseid := getD data "baseid" b.baseid,
    basesaveid := getD data "basesaveid" b.basesaveid,
    basename := getD data "basename" b.basename,
    lastupdate := getD data "lastupdate" b.lastupdate,
    buildingdata := bdata,
    buildinghealthdata := getD data "buildinghealthdata" b.buildinghealthdata,
    buildingresources := bres,
    resources := res,
    damage := getD data "damage" b.damage,
    flinger := getD data "flinger" b.flinger,
    catapult := getD data "catapult" b.catapult,
    aiattacks := aia,
    siege := getD data "siege" b.siege,
    attackersiege := getD data "attackersiege" b.attackersiege,
    effects := getD data "effects" b.effects,
    tutorialstage := getD data "tutorialstage" b.tutorialstage,
    timeplayed := getD data "timeplayed" b.timeplayed,
    basevalue := getD data "basevalue" b.basevalue,
    empirevalue := getD data "empirevalue" b.empirevalue,
    points := getD data "points" b.points,
    baseseed := getD data "baseseed" b.baseseed,
    clienttime := getD data "clienttime" b.clienttime,
    researchdata := getD data "researchdata" b.researchdata,
    rewards := getD data "rewards" b.rewards,
    achieved := getD data "achieved" b.achieved,
    stats := st,
    inventory := getD data "inventory" b.inventory,
    lockerdata := lockers,
    academy := acad,
    quests := getD data "quests" b.quests,
    events := getD data "events" b.events,
    frontpage := getD data "frontpage" b.frontpage,
    monsters := mon,
    monsterupdate := getD data "monsterupdate" b.monsterupdate,
    monsterbaiter := mbait,
    champion := getD data "champion" b.champion,
    mushrooms := mush,
    empiredestroyed := getD data "empiredestroyed" b.empiredestroyed,
    worldid := getD data "worldid" b.worldid,
    event_score := getD data "event_score" b.event_score,
    chatenabled := getD data "chatenabled" b.chatenabled,
    relationship := getD data "relationship" b.relationship,
    healtime := getD data "healtime" b.healtime,
    over := getD data "over" b.over,
    protect := getD data "protect" b.protect,
    purchasecomplete := getD data "purchasecomplete" b.purchasecomplete,
    seed := getD data "seed" b.seed,
    bookmarked := getD data "bookmarked" b.bookmarked,
    fan := getD data "fan" b.fan,
    emailshared := getD data "emailshared" b.emailshared,
    unreadmessages := getD data "unreadmessages" b.unreadmessages,
    giftsentcount := getD data "giftsentcount" b.giftsentcount,
    canattack := getD data "canattack" b.canattack,
    fortifycellid := getD data "fortifycellid" b.fortifycellid,
    name := getD data "name" b.name,
    level := getD data "level" b.level,
    destroyed := getD data "destroyed" b.destroyed,
    locked := getD data "locked" b.locked,
    usemap := getD data "usemap" b.usemap,
    credits := getD data "credits" b.credits,
    iresources := ires,
    storedata := getD data "storedata" b.storedata,
    coords := getD data "coords" b.coords,
    player := getD data "player" b.player,
    krallen := getD data "krallen" b.krallen,
    loot := getD data "loot" b.loot,
    homebase := getD data "homebase" b.homebase,
    outposts := getD data "outposts" b.outposts,
    wmstatus := getD data "wmstatus" b.wmstatus,
    chatservers := getD data "chatservers" b.chatservers,
    gifts := getD data "gifts" b.gifts,
    sentinvites := getD data "sentinvites" b.sentinvites,
    sentgifts := getD data "sentgifts" b.sentgifts,
    fbpromos := getD data "fbpromos" b.fbpromos,
    powerups := getD data "powerups" b.powerups,
    attpowerups := getD data "attpowerups" b.attpowerups,
    fbid := getD data "fbid" b.fbid,
    cantmovetill := getD data "cantmovetill" b.cantmovetill,
    attackreport := getD data "attackreport" b.attackreport,
    buildingkeydata := getD data "buildingkeydata" b.buildingkeydata,
    attacks := getD data "attacks" b.attacks,
    lootreport := getD data "lootreport" b.lootreport,
    attackloot := getD data "attackloot" b.attackloot,
    savetemplate := getD data "savetemplate" b.savetemplate,
    updates := getD data "updates" b.updates,
    createtime := getD data "createtime" b.createtime,
    savetime := getD data "savetime" b.savetime,
    id := getD data "id" b.id,
    baseid_inferno := getD data "baseid_inferno" b.baseid_inferno,
    wmid := getD data "wmid" b.wmid,
    type := getD data "type" b.type
  }

/-! ## The Field Codec of `client.py`

`_make_request` form-encodes a request body: nested structures become
compact JSON text (`json.dumps` with separators `(",", ":")` and
`ensure_ascii`), the absence marker becomes `"null"`, other scalars are
stringified. -/

/-- One lowercase hex digit. -/
def hexDigit (n : Nat) : Char :=
  if n < 10 then Char.ofNat (48 + n) else Char.ofNat (87 + n)

/-- Four lowercase hex digits, as json.dumps writes escape sequences. -/
def hex4 (n : Nat) : String :=
  String.mk [hexDigit (n / 4096 % 16), hexDigit (n / 256 % 16),
             hexDigit (n / 16 % 16), hexDigit (n % 16)]

/-- JSON escaping of one character under ensure_ascii: the two-character
escapes, unicode escapes outside printable ASCII, else the character. -/
def escChar (c : Char) : String :=
  if c = '"' then "\\\""
  else if c = '\\' then "\\\\"
  else if c = '\n' then "\\n"
  else if c = '\t' then "\\t"
  else if c = '\r' then "\\r"
  else if c.toNat = 8 then "\\b"
  else if c.toNat = 12 then "\\f"
  else if c.toNat < 32 || c.toNat > 126 then
    if c.toNat < 65536 then "\\u" ++ hex4 c.toNat
    else
      "\\u" ++ hex4 (55296 + (c.toNat - 65536) / 1024) ++
      "\\u" ++ hex4 (56320 + (c.toNat - 65536) % 1024)
  else String.singleton c

/-- Character-by-character escaping of a string body. -/
def escapeChars : List Char → String
  | [] => ""
  | c :: cs => escChar c ++ escapeChars cs

/-- JSON escaping of a string body. -/
def escape (s : String) : String := escapeChars s.data

mutual

/-- json.dumps with separators (",", ":"): compact, no whitespace emitted. -/
def dumps : JVal → String
  | .null => "null"
  | .bool true => "true"
  | .bool false => "false"
  | .int n => toString n
  | .str s => "\"" ++ escape s ++ "\""
  | .arr xs => "[" ++ dumpsList xs ++ "]"
  | .obj fs => "\x7b" ++ dumpsObj fs ++ "\x7d"

/-- Array items joined by the item separator. -/
def dumpsList : List JVal → String
  | [] => ""
  | [x] => dumps x
  | x :: y :: rest => dumps x ++ "," ++ dumpsList (y :: rest)

/-- Object entries, each key escaped and joined to its value by ":". -/
def dumpsObj : List (String × JVal) → String
  | [] => ""
  | [(k, v)] => "\"" ++ escape k ++ "\":" ++ dumps v
  | (k, v) :: p :: rest =>
      "\"" ++ escape k ++ "\":" ++ dumps v ++ "," ++ dumpsObj (p :: rest)

end

/-- The per-field wire encoding in _make_request: mappings and sequences are
dumped to compact JSON text, None becomes the literal "null", any other
scalar is stringified. -/
def encodeField : JVal → String
  | .obj fs => dumps (.obj fs)
  | .arr xs => dumps (.arr xs)
  | .null => "null"
  | .bool true => "True"
  | .bool false => "False"
  | .int n => toString n
  | .str s => s

/-- The form_data mapping _make_request builds from a request body. -/
def formEncode (d : List (String × JVal)) : List (String × String) :=
  d.map (fun kv => (kv.1, encodeField kv.2))

mutual

/-- No space character occurs in any string literal (or object key) of a
value. -/
def jvalNoSpace : JVal → Bool
  | .null => true
  | .bool _ => true
  | .int _ => true
  | .str s => s.data.all (fun c => c != ' ')
  | .arr xs => jvalListNoSpace xs
  | .obj fs => jvalObjNoSpace fs

/-- jvalNoSpace over array items. -/
def jvalListNoSpace : List JVal → Bool
  | [] => true
  | x :: xs => jvalNoSpace x && jvalListNoSpace xs

/-- jvalNoSpace over object entries, keys included. -/
def jvalObjNoSpace : List (String × JVal) → Bool
  | [] => true
  | (k, v) :: fs => k.data.all (fun c => c != ' ') && jvalNoSpace v && jvalObjNoSpace fs

end

/-! ## The Transport Adapter of `client.py` -/

/-- A raw HTTP body: the structured parse when the text is valid JSON,
together with the raw text. -/
structure HTTPBody where
  parsed : Option JVal
  text : String

/-- The socket-level outcomes _make_request distinguishes. -/
inductive HTTPOutcome where
  | response (status : Nat) (body : HTTPBody)
  | timeout
  | connectionError (msg : String)

/-- The SDK exception taxonomy of exceptions.py, with the constructor
arguments each raise site in _make_request passes. -/
inductive APIFailure where
  | authentication (message : String) (statusCode : Nat) (response : JVal)
  | validation (message : String) (statusCode : Nat) (response : JVal)
  | server (message : String) (statusCode : Nat) (response : JVal)
  | generic (message : String) (statusCode : Option Nat) (response : Option JVal)
  | network (message : String)
deriving DecidableEq

/-- Best-effort parsing (_safe_json_parse): the parsed JSON, else the raw
text wrapped in a single-key dict. -/
def safeJsonParse (b : HTTPBody) : JVal :=
  match b.parsed with
  | some v => v
  | none => .obj [("raw_response", .str b.text)]

/-- The status-classification and exception-mapping tail of _make_request. -/
def makeRequest (timeoutSecs : Int) (outcome : HTTPOutcome) :
    Except APIFailure JVal :=
  match outcome with
  | .response status body =>
      if status = 401 then
        .error (.authentication "Authentication failed. Check your bearer token."
          status (safeJsonParse body))
      else if status = 400 then
        .error (.validation "Request validation failed." status (safeJsonParse body))
      else if 500 ≤ status ∧ status < 600 then
        .error (.server ("Server error: " ++ toString status) status (safeJsonParse body))
      else if status ≠ 200 then
        .error (.generic ("API request failed: " ++ toString status)
          (some status) (some (safeJsonParse body)))
      else .ok (safeJsonParse body)
  | .timeout =>
      .error (.network ("Request timed out after " ++ toString timeoutSecs ++ " seconds"))
  | .connectionError msg =>
      .error (.network ("Connection error: " ++ msg))

/-! ## The Mutation Engine of `client.py` -/

/-- BYMRClient.REQUIRED_FIELDS. -/
def REQUIRED_FIELDS : List String :=
  ["baseid", "basesaveid", "points", "basevalue", "buildingdata", "champion"]

/-- The dict comprehension over REQUIRED_FIELDS in mutate_server; a missing
key would be a KeyError. -/
def requiredSubset (bd : List (String × JVal)) : Option (List (String × JVal)) :=
  REQUIRED_FIELDS.mapM (fun f => (lookup bd f).map (fun v => (f, v)))

/-- The overlay loop in mutate_server: every mutation binding is written
into the request dict, overwriting same-named keys. -/
def overlay (d : List (String × JVal)) (m : List (String × JVal)) :
    List (String × JVal) :=
  m.foldl (fun acc kv => dictInsert acc kv.1 kv.2) d

/-- The request body mutate_server dispatches to /base/save. -/
def mutateServerBody (b : BaseData) (mutation : List (String × JVal)) :
    Option (List (String × JVal)) :=
  (requiredSubset (BaseData.toDict b)).map (fun req => overlay req mutation)

/-- The per-counter computation in set_resources: target minus current local
counter when a target is given, 0 for the keep-current sentinel; arithmetic
on a non-integer local counter is a TypeError. -/
def counterDelta (target : Option Int) (current : JVal) : Option JVal :=
  match target with
  | none => some (.int 0)
  | some x =>
      match current with
      | .int c => some (.int (x - c))
      | _ => none

/-- The resource mutation set_resources builds: four counter deltas and the
four current capacities, all in one dict. -/
def setResourcesMutation (cur : Resources) (r1 r2 r3 r4 : Option Int) :
    Option (List (String × JVal)) := do
  let d1 ← counterDelta r1 cur.r1
  let d2 ← counterDelta r2 cur.r2
  let d3 ← counterDelta r3 cur.r3
  let d4 ← counterDelta r4 cur.r4
  some [("resources", .obj [("r1", d1), ("r2", d2), ("r3", d3), ("r4", d4),
        ("r1max", cur.r1max), ("r2max", cur.r2max),
        ("r3max", cur.r3max), ("r4max", cur.r4max)])]

/-- What one convenience-mutator call produces: the mutation it hands to
mutate_server and the Python value returned to the caller. -/
structure MutatorCall where
  mutation : List (String × JVal)
  ret : Option JVal
deriving DecidableEq

/-- increment_resources on a loaded record: sends the four increments with
the current capacities; the function body ends without a return statement,
so the caller receives None whatever the server responded. -/
def incrementResources (b : BaseData) (r1 r2 r3 r4 : Int)
    (_serverResponse : JVal) : MutatorCall :=
  { mutation := [("resources", .obj
      [("r1", .int r1), ("r2", .int r2), ("r3", .int r3), ("r4", .int r4),
       ("r1max", b.resources.r1max), ("r2max", b.resources.r2max),
       ("r3max", b.resources.r3max), ("r4max", b.resources.r4max)])],
    ret := none }

/-- set_resources on a loaded record: builds the delta mutation and ends
without a return statement. -/
def setResourcesCall (b : BaseData) (t1 t2 t3 t4 : Option Int)
    (_serverResponse : JVal) : Option MutatorCall :=
  (setResourcesMutation b.resources t1 t2 t3 t4).map
    (fun m => { mutation := m, ret := none })

/-- purchase_item on a loaded record: sends the purchase pair and ends
without a return statement. -/
def purchaseItem (_b : BaseData) (itemId : String) (quantity : Int)
    (_serverResponse : JVal) : MutatorCall :=
  { mutation := [("purchase", .arr [.str itemId, .int quantity])], ret := none }

/-! ## Session restore at client construction (`client.py`) -/

/-- The states of the persisted user file a restore can meet. -/
inductive UserFile where
  | absent
  | malformed
  | valid (u : UserData)

/-- Session restore (_load_user_from_file): a missing file returns False without touching
self.user_data; malformed content raises (error); a well-formed file sets
self.user_data and returns True. The second component is the user_data
attribute after the call, where none means the attribute was never
assigned. -/
def loadUserFromFile (file : UserFile) (userDataAttr : Option UserData) :
    Except Unit (Bool × Option UserData) :=
  match file with
  | .absent => .ok (false, userDataAttr)
  | .malformed => .error ()
  | .valid u => .ok (true, some u)

/-- The distinct ways client construction can terminate abnormally. -/
inductive InitError where
  | loadError
  | attributeError
  | syncError
deriving DecidableEq

/-- State initialization (_initialize_state) as run by the constructor. The constructor never
assigns self.user_data, so the attribute starts out missing; the guard
then reads self.user_data, which is an AttributeError whenever no
successful load assigned it. -/
def initializeState (stateFileConfigured : Bool) (file : UserFile)
    (syncOk : Bool) : Except InitError (Option UserData) :=
  let afterLoad : Except InitError (Option UserData) :=
    if stateFileConfigured then
      match loadUserFromFile file none with
      | .ok (_, st) => .ok st
      | .error _ => .error .loadError
    else .ok none
  match afterLoad with
  | .error e => .error e
  | .ok none => .error .attributeError
  | .ok (some u) => if syncOk then .ok (some u) else .error .syncError

/-! ## The Conquest Orchestrator of `client.py` -/

/-- One enemy-base record get_enemy_bases_from_area builds per kept cell. -/
structure Target where
  bid : JVal
  name : JVal
  uid : JVal
  x : String
  y : String
  level : JVal
  damage : JVal
deriving DecidableEq

/-- An area response's data: x coordinate to y coordinate to raw cell dict. -/
def AreaData := List (String × List (String × List (String × JVal)))

/-- The per-cell body of get_enemy_bases_from_area. The error case models
the one exception the loop body can raise (a player cell whose name is not
a string cannot be lowercased); the inner Option is skip-versus-keep. -/
def classifyCell (currentUsername : String) (includeWildMonsters : Bool)
    (xCoord yCoord : String) (cell : List (String × JVal)) :
    Except Unit (Option Target) :=
  match lookup cell "bid" with
  | none => .ok none
  | some bid =>
      let cellType := getD cell "b" (.int 0)
      let typeOk : Bool :=
        if includeWildMonsters then cellType == .int 1 || cellType == .int 3
        else cellType == .int 3
      if !typeOk then .ok none
      else
        let cellName := getD cell "n" (.str "")
        let selfCheck : Except Unit Bool :=
          if cellType == .int 3 then
            match cellName with
            | .str s => .ok (s.toLower == currentUsername.toLower)
            | _ => .error ()
          else .ok false
        match selfCheck with
        | .error _ => .error ()
        | .ok isSelf =>
            if isSelf then .ok none
            else if getD cell "d" (.int 0) == .int 1 then .ok none
            else .ok (some
              { bid := bid, name := cellName, uid := getD cell "uid" (.int 0),
                x := xCoord, y := yCoord, level := getD cell "l" (.int 0),
                damage := getD cell "dm" (.int 0) })

/-- The inner y-loop of get_enemy_bases_from_area. -/
def scanRow (username : String) (includeWild : Bool) (xCoord : String) :
    List (String × List (String × JVal)) → Except Unit (List Target)
  | [] => .ok []
  | (yCoord, cell) :: rest => do
      let t ← classifyCell username includeWild xCoord yCoord cell
      let ts ← scanRow username includeWild xCoord rest
      match t with
      | some tgt => pure (tgt :: ts)
      | none => pure ts

/-- get_enemy_bases_from_area over the whole data mapping. -/
def getEnemyBasesFromArea (username : String) (includeWild : Bool) :
    AreaData → Except Unit (List Target)
  | [] => .ok []
  | (xCoord, ydata) :: rest => do
      let ts ← scanRow username includeWild xCoord ydata
      let rest' ← getEnemyBasesFromArea username includeWild rest
      pure (ts ++ rest')

/-- The outcome of one get_area call in the conquest scan (the transport is
an external collaborator): an exception, a response with a non-zero error
field, or structured area data. -/
inductive ScanResp where
  | exn
  | errorResp
  | ok (data : AreaData)

/-- The enemy/wild contribution of scanning one owned base: the player-base
pass and then the wild-inclusive pass, where an exception in the second
pass still keeps the first pass's targets (they were added to the
deduplication dict before the second call). -/
def scanOne (resp : ScanResp) (username : String) (includeWild : Bool) :
    List Target × List Target :=
  match resp with
  | .exn => ([], [])
  | .errorResp => ([], [])
  | .ok data =>
      match getEnemyBasesFromArea username includeWild data with
      | .error _ => ([], [])
      | .ok enemies =>
          match getEnemyBasesFromArea username true data with
          | .error _ => (enemies, [])
          | .ok wild => (enemies, wild)

/-- Python dict indexing keyed by a dynamic base id, used by the
deduplication dicts of conquer_entire_map. -/
def dictInsertJ (d : List (JVal × Target)) (k : JVal) (v : Target) :
    List (JVal × Target) :=
  match d with
  | [] => [(k, v)]
  | (k', v') :: rest =>
      if k' = k then (k, v) :: rest else (k', v') :: dictInsertJ rest k v

/-- targets_dict[base["bid"]] = base, over a scan's enemy list. -/
def addTargets (d : List (JVal × Target)) : List Target → List (JVal × Target)
  | [] => d
  | t :: ts => addTargets (dictInsertJ d t.bid t) ts

/-- wild_monsters_dict[base["bid"]] = base, over a scan's wild list, keeping
only the bases absent from the same scan's enemy list. -/
def addWild (d : List (JVal × Target)) (enemies : List Target) :
    List Target → List (JVal × Target)
  | [] => d
  | t :: ts =>
      if t ∈ enemies then addWild d enemies ts
      else addWild (dictInsertJ d t.bid t) enemies ts

/-- dict.values() in insertion order. -/
def dictValues (d : List (JVal × Target)) : List Target := d.map Prod.snd

/-- The scanning half of one conquest iteration: fold every owned base's
scan into the two deduplication dicts. -/
def scanPhase (scan : Int × Int → ScanResp) (username : String)
    (includeWild : Bool) (owned : List (Int × Int)) :
    List (JVal × Target) × List (JVal × Target) :=
  owned.foldl (fun acc coord =>
    let ew := scanOne (scan coord) username includeWild
    (addTargets acc.1 ew.1, addWild acc.2 ew.1 ew.2)) ([], [])

/-- The fallback/terminal selection after a scan: no player targets and no
wild monsters breaks the loop (none); no player targets but wild monsters
selects exactly the first wild monster; otherwise the player targets. -/
def selectTargets (targets wildMonsters : List Target) : Option (List Target) :=
  match targets, wildMonsters with
  | [], [] => none
  | [], w :: _ => some [w]
  | ts, _ => some ts

/-- The value of one decimal digit character. -/
def digitVal? (c : Char) : Option Nat :=
  if 48 ≤ c.toNat && c.toNat ≤ 57 then some (c.toNat - 48) else none

/-- Decimal digits folded into a number. -/
def natDigits? : List Char → Nat → Option Nat
  | [], acc => some acc
  | c :: cs, acc =>
      match digitVal? c with
      | some d => natDigits? cs (acc * 10 + d)
      | none => none

/-- Python int() on the map-coordinate strings: an optional sign followed by
at least one decimal digit, else a ValueError (none). -/
def pyInt? (s : String) : Option Int :=
  match s.data with
  | [] => none
  | c :: cs =>
      if c = '-' then
        match cs with
        | [] => none
        | _ => (natDigits? cs 0).map (fun n => -(n : Int))
      else (natDigits? (c :: cs) 0).map (fun n => (n : Int))

/-- One target's attack sequence inside the per-target try: the
destroy-and-takeover round-trips either succeed or raise, and on success
the coordinates int(x), int(y) are computed in the same try. -/
def attackTarget (atk : Target → Bool) (t : Target) : Option (Int × Int) :=
  if atk t then
    match pyInt? t.x, pyInt? t.y with
    | some xi, some yi => some (xi, yi)
    | _, _ => none
  else none

/-- set.add on the owned-base set. -/
def addCoord (owned : List (Int × Int)) (c : Int × Int) : List (Int × Int) :=
  if c ∈ owned then owned else owned ++ [c]

/-- What one iteration's attack loop accumulates. -/
structure AttackSummary where
  owned : List (Int × Int)
  conquered : Nat
  failed : Nat
  newlyConquered : List Target
deriving DecidableEq

/-- The attack loop of one conquest iteration: every target is attempted in
order; an exception is recorded as a failure and the loop continues with
the next target; only a successful sequence adds its coordinates. -/
def attackPhase (atk : Target → Bool) (targets : List Target)
    (owned : List (Int × Int)) : AttackSummary :=
  match targets with
  | [] => { owned := owned, conquered := 0, failed := 0, newlyConquered := [] }
  | t :: ts =>
      match attackTarget atk t with
      | some c =>
          let s := attackPhase atk ts (addCoord owned c)
          { s with conquered := s.conquered + 1, newlyConquered := t :: s.newlyConquered }
      | none =>
          let s := attackPhase atk ts owned
          { s with failed := s.failed + 1 }

/-- One entry of iteration_results. -/
structure IterationRecord where
  iteration : Nat
  targetsFound : Nat
  conquered : Nat
  failed : Nat
deriving DecidableEq

/-- The dictionary conquer_entire_map returns. -/
structure ConquestReport where
  totalConquered : Nat
  totalOwnedBases : Nat
  iterations : Nat
  ownedBases : List (Int × Int)
  iterationResults : List IterationRecord
deriving DecidableEq

/-- The while-loop of conquer_entire_map, entered with a given iteration
counter. -/
def conquerLoop (scan : Int × Int → ScanResp) (atk : Target → Bool)
    (username : String) (includeWild : Bool) (maxIterations : Nat)
    (owned : List (Int × Int)) (totalConquered iteration : Nat)
    (results : List IterationRecord) : ConquestReport :=
  if iteration < maxIterations then
    let iter := iteration + 1
    let dicts := scanPhase scan username includeWild owned
    let targets := dictValues dicts.1
    let wild := dictValues dicts.2
    match selectTargets targets wild with
    | none =>
        { totalConquered := totalConquered, totalOwnedBases := owned.length,
          iterations := iter, ownedBases := owned, iterationResults := results }
    | some chosen =>
        let s := attackPhase atk chosen owned
        conquerLoop scan atk username includeWild maxIterations s.owned
          (totalConquered + s.conquered) iter
          (results ++ [{ iteration := iter, targetsFound := chosen.length,
                         conquered := s.conquered, failed := s.failed }])
  else
    { totalConquered := totalConquered, totalOwnedBases := owned.length,
      iterations := iteration, ownedBases := owned, iterationResults := results }
termination_by maxIterations - iteration
decreasing_by omega

/-- conquer_entire_map: seed the owned set from the main-base coordinates
and run the loop from iteration 0. -/
def conquerEntireMap (scan : Int × Int → ScanResp) (atk : Target → Bool)
    (username : String) (includeWild : Bool) (mainBaseCoords : List (Int × Int))
    (maxIterations : Nat) : ConquestReport :=
  conquerLoop scan atk username includeWild maxIterations
    (mainBaseCoords.foldl addCoord []) 0 0 []

/-! ## Example records and decidable space-freeness, used by the theorems -/

/-- The prior Base Record of the C1 counterexample: the local resources
counter r1 holds 5. -/
def exBase : BaseData :=
  { BaseData.default with resources := { Resources.default with r1 := .int 5 } }

/-- The record the C1 witness reconciliation produces. -/
def exMerged : BaseData :=
  { exBase with points := JVal.int 7, resources := Resources.default }

/-- Space-freeness of a string, decidably. -/
def strNoSpace (s : String) : Bool := s.data.all (fun c => c != ' ')

/-! ## Theorems -/

theorem getD_of_lookup_some {d : List (String × JVal)} {k : String} {v : JVal}
    (h : lookup d k = some v) (dflt : JVal) : getD d k dflt = v := by
  simp [getD, h]

theorem getD_of_lookup_none {d : List (String × JVal)} {k : String}
    (h : lookup d k = none) (dflt : JVal) : getD d k dflt = dflt := by
  simp [getD, h]

/-- C3: for every loaded Base Record with integer counters (c1,c2,c3,c4) and
every set_resources(t1,t2,t3,t4) call, the resource mutation sent carries
counter deltas ti - ci for specified targets and 0 for keep-current (None)
targets, and the four capacity fields are the current local capacities,
passed through unchanged as absolutes. -/
theorem set_resources_sends_deltas (c1 c2 c3 c4 : Int) (m1 m2 m3 m4 : JVal)
    (t1 t2 t3 t4 : Option Int) :
    setResourcesMutation ⟨.int c1, .int c2, .int c3, .int c4, m1, m2, m3, m4⟩
        t1 t2 t3 t4 =
      some [("resources", .obj
        [("r1", .int (t1.elim 0 (fun x => x - c1))),
         ("r2", .int (t2.elim 0 (fun x => x - c2))),
         ("r3", .int (t3.elim 0 (fun x => x - c3))),
         ("r4", .int (t4.elim 0 (fun x => x - c4))),
         ("r1max", m1), ("r2max", m2), ("r3max", m3), ("r4max", m4)])] := by
  cases t1 <;> cases t2 <;> cases t3 <;> cases t4 <;> rfl

/-- C6: when an iteration's deduplicated player-enemy target set is empty
but the wild-monster set is not, exactly one wild-monster cell (the first)
is selected, and the attack loop of that iteration attempts exactly that
one target. -/
theorem conquest_wild_monster_fallback (w : Target) (ws : List Target)
    (atk : Target → Bool) (owned : List (Int × Int)) :
    selectTargets [] (w :: ws) = some [w] ∧
    (attackPhase atk [w] owned).conquered + (attackPhase atk [w] owned).failed = 1 := by
  refine ⟨rfl, ?_⟩
  cases h : attackTarget atk w <;> simp [attackPhase, h]

/-- C9 (documents the divergence): with a configured state file and no
persisted user file, _load_user_from_file correctly reports not-found
(False) without raising, but _initialize_state then reads the never
assigned self.user_data attribute, so client construction raises an
AttributeError; malformed content raises out of the load as specified. -/
theorem restore_missing_file_raises_attribute_error :
    loadUserFromFile .absent none = .ok (false, none) ∧
    initializeState true .absent true = .error .attributeError ∧
    initializeState false .absent true = .error .attributeError ∧
    initializeState true .malformed true = .error .loadError :=
  ⟨rfl, rfl, rfl, rfl⟩

/-- C10: the convenience mutators set_resources, increment_resources and
purchase_item end without a return statement, so each call returns None to
the caller even though the save and sync round-trips produced a server
response. -/
theorem convenience_mutators_return_none (b : BaseData) (i1 i2 i3 i4 : Int)
    (t1 t2 t3 t4 : Option Int) (itemId : String) (quantity : Int) (resp : JVal) :
    (incrementResources b i1 i2 i3 i4 resp).ret = none ∧
    (∀ mc, setResourcesCall b t1 t2 t3 t4 resp = some mc → mc.ret = none) ∧
    (purchaseItem b itemId quantity resp).ret = none := by
  refine ⟨rfl, ?_, rfl⟩
  intro mc hmc
  unfold setResourcesCall at hmc
  cases h : setResourcesMutation b.resources t1 t2 t3 t4 with
  | none => rw [h] at hmc; simp at hmc
  | some m => rw [h] at hmc; simp at hmc; rw [← hmc]

theorem convenience_mutators_return_none_witness :
    ({ mutation := [("resources", JVal.obj
        [("r1", .int 5), ("r2", .int 0), ("r3", .int 0), ("r4", .int 0),
         ("r1max", .int 10000), ("r2max", .int 10000), ("r3max", .int 10000),
         ("r4max", .int 10000)])], ret := none } : MutatorCall).ret = none :=
  (convenience_mutators_return_none BaseData.default 1 2 3 4
      (some 5) none none none "MUSHROOM2" 1 .null).2.1 _ (by decide)

/-- C4: the Transport Adapter's failure is determined by the HTTP status:
401 is the authentication failure, 400 the validation failure, 500..599 the
server failure, any other non-200 the generic API failure; a socket timeout
and a connection-level error are network failures; 200 returns the parsed
body. Every status-classified failure carries the status code and the
best-effort parsed body, where an unparseable body is the raw text wrapped
in a single-key dict. -/
theorem transport_classifies_by_status (timeoutSecs : Int) (body : HTTPBody)
    (msg : String) :
    makeRequest timeoutSecs (.response 401 body) =
      .error (.authentication "Authentication failed. Check your bearer token."
        401 (safeJsonParse body)) ∧
    makeRequest timeoutSecs (.response 400 body) =
      .error (.validation "Request validation failed." 400 (safeJsonParse body)) ∧
    (∀ s : Nat, 500 ≤ s → s < 600 →
      makeRequest timeoutSecs (.response s body) =
        .error (.server ("Server error: " ++ toString s) s (safeJsonParse body))) ∧
    (∀ s : Nat, s ≠ 200 → s ≠ 400 → s ≠ 401 → ¬(500 ≤ s ∧ s < 600) →
      makeRequest timeoutSecs (.response s body) =
        .error (.generic ("API request failed: " ++ toString s)
          (some s) (some (safeJsonParse body)))) ∧
    makeRequest timeoutSecs (.response 200 body) = .ok (safeJsonParse body) ∧
    makeRequest timeoutSecs .timeout =
      .error (.network ("Request timed out after " ++ toString timeoutSecs ++ " seconds")) ∧
    makeRequest timeoutSecs (.connectionError msg) =
      .error (.network ("Connection error: " ++ msg)) ∧
    (∀ t, safeJsonParse ⟨none, t⟩ = .obj [("raw_response", .str t)]) ∧
    (∀ v t, safeJsonParse ⟨some v, t⟩ = v) := by
  refine ⟨rfl, rfl, ?_, ?_, rfl, rfl, rfl, fun t => rfl, fun v t => rfl⟩
  · intro s h5 h6
    have h401 : s ≠ 401 := by omega
    have h400 : s ≠ 400 := by omega
    simp [makeRequest, h401, h400, h5, h6]
  · intro s h200 h400 h401 h5xx
    simp [makeRequest, h401, h400, h5xx, h200]

theorem transport_classifies_by_status_witness :
    makeRequest 30 (.response 503 ⟨none, "oops"⟩) =
      .error (.server "Server error: 503" 503
        (.obj [("raw_response", .str "oops")])) ∧
    makeRequest 30 (.response 404 ⟨some .null, ""⟩) =
      .error (.generic "API request failed: 404" (some 404) (some .null)) := by
  constructor
  · exact (transport_classifies_by_status 30 ⟨none, "oops"⟩ "").2.2.1 503
      (by norm_num) (by norm_num)
  · exact (transport_classifies_by_status 30 ⟨some .null, ""⟩ "").2.2.2.1 404
      (by norm_num) (by norm_num) (by norm_num) (by omega)

/-! ## Association-list lemmas for the request-body theorems -/

theorem lookup_dictInsert (d : List (String × JVal)) (k k' : String) (v : JVal) :
    lookup (dictInsert d k v) k' = if k = k' then some v else lookup d k' := by
  induction d with
  | nil => simp [dictInsert, lookup]
  | cons p rest ih =>
      obtain ⟨pk, pv⟩ := p
      by_cases h1 : pk = k
      · subst h1
        by_cases h2 : pk = k' <;> simp [dictInsert, lookup, h2]
      · simp only [dictInsert, if_neg h1, lookup, ih]
        by_cases h2 : k = k'
        · subst h2; simp [h1]
        · simp [h2]

theorem lookup_isSome_iff_mem_keys (d : List (String × JVal)) (k : String) :
    (lookup d k).isSome ↔ k ∈ d.map Prod.fst := by
  induction d with
  | nil => simp [lookup]
  | cons p rest ih =>
      obtain ⟨pk, pv⟩ := p
      by_cases h : pk = k
      · subst h; simp [lookup]
      · simp [lookup, h, ih, Ne.symm h]

theorem lookup_eq_none_iff_not_mem_keys (d : List (String × JVal)) (k : String) :
    lookup d k = none ↔ k ∉ d.map Prod.fst := by
  rw [← lookup_isSome_iff_mem_keys]
  cases lookup d k <;> simp

theorem lookup_overlay_of_none (d m : List (String × JVal)) (k : String)
    (h : lookup m k = none) : lookup (overlay d m) k = lookup d k := by
  induction m generalizing d with
  | nil => rfl
  | cons p rest ih =>
      obtain ⟨pk, pv⟩ := p
      simp only [lookup] at h
      by_cases h1 : pk = k
      · simp [h1] at h
      · simp only [if_neg h1] at h
        simp only [overlay, List.foldl_cons]
        rw [show (List.foldl (fun acc kv => dictInsert acc kv.1 kv.2)
              (dictInsert d pk pv) rest) = overlay (dictInsert d pk pv) rest from rfl,
            ih _ h, lookup_dictInsert, if_neg h1]

theorem lookup_overlay_of_some (d m : List (String × JVal)) (k : String)
    (v : JVal) (hnd : (m.map Prod.fst).Nodup) (h : lookup m k = some v) :
    lookup (overlay d m) k = some v := by
  induction m generalizing d with
  | nil => simp [lookup] at h
  | cons p rest ih =>
      obtain ⟨pk, pv⟩ := p
      simp only [List.map_cons, List.nodup_cons] at hnd
      simp only [lookup] at h
      simp only [overlay, List.foldl_cons]
      rw [show (List.foldl (fun acc kv => dictInsert acc kv.1 kv.2)
            (dictInsert d pk pv) rest) = overlay (dictInsert d pk pv) rest from rfl]
      by_cases h1 : pk = k
      · subst h1
        simp at h
        subst h
        have hnone : lookup rest pk = none := by
          rw [lookup_eq_none_iff_not_mem_keys]; exact hnd.1
        rw [lookup_overlay_of_none _ _ _ hnone, lookup_dictInsert, if_pos rfl]
      · simp only [if_neg h1] at h
        exact ih _ hnd.2 h

theorem lookup_overlay_isSome (d m : List (String × JVal)) (k : String) :
    (lookup (overlay d m) k).isSome ↔
      (lookup d k).isSome ∨ (lookup m k).isSome := by
  induction m generalizing d with
  | nil => simp [overlay, lookup]
  | cons p rest ih =>
      obtain ⟨pk, pv⟩ := p
      simp only [overlay, List.foldl_cons]
      rw [show (List.foldl (fun acc kv => dictInsert acc kv.1 kv.2)
            (dictInsert d pk pv) rest) = overlay (dictInsert d pk pv) rest from rfl]
      rw [ih]
      simp only [lookup]
      by_cases h1 : pk = k
      · subst h1
        rw [lookup_dictInsert, if_pos rfl]
        simp
      · rw [lookup_dictInsert, if_neg h1]
        simp [h1]

/-- The required-field subset of a full Base Record dictionary always
exists and is exactly the six whitelist bindings taken from the record. -/
theorem requiredSubset_toDict (b : BaseData) :
    requiredSubset (BaseData.toDict b) = some
      [("baseid", b.baseid), ("basesaveid", b.basesaveid), ("points", b.points),
       ("basevalue", b.basevalue),
       ("buildingdata", BuildingData.toDict b.buildingdata),
       ("champion", b.champion)] := rfl

/-- C2: the request body mutate_server dispatches to /base/save contains
exactly the union of the six-field whitelist (each value taken from the
current Base Record) and the mutation's keys, with mutation values
overwriting same-named whitelist entries; no other field of the Base
Record is sent. -/
theorem mutate_request_body_is_whitelist_union (b : BaseData)
    (m : List (String × JVal)) (hm : (m.map Prod.fst).Nodup)
    (body : List (String × JVal)) (hbody : mutateServerBody b m = some body) :
    (∀ k, (lookup body k).isSome ↔ (k ∈ REQUIRED_FIELDS ∨ (lookup m k).isSome)) ∧
    (∀ k v, lookup m k = some v → lookup body k = some v) ∧
    (∀ k, k ∈ REQUIRED_FIELDS → lookup m k = none →
        lookup body k = lookup (BaseData.toDict b) k) := by
  rw [mutateServerBody, requiredSubset_toDict] at hbody
  simp only [Option.map_some'] at hbody
  set req : List (String × JVal) :=
    [("baseid", b.baseid), ("basesaveid", b.basesaveid), ("points", b.points),
     ("basevalue", b.basevalue),
     ("buildingdata", BuildingData.toDict b.buildingdata),
     ("champion", b.champion)] with hreq
  injection hbody with hbody
  subst hbody
  refine ⟨?_, ?_, ?_⟩
  · intro k
    rw [lookup_overlay_isSome, lookup_isSome_iff_mem_keys]
    have hkeys : req.map Prod.fst = REQUIRED_FIELDS := rfl
    rw [hkeys]
  · intro k v hv
    exact lookup_overlay_of_some _ _ _ _ hm hv
  · intro k hk hnone
    rw [lookup_overlay_of_none _ _ _ hnone]
    fin_cases hk <;> rfl

theorem mutate_request_body_is_whitelist_union_witness :
    lookup [("baseid", JVal.int 0), ("basesaveid", JVal.int 0),
            ("points", JVal.int 99), ("basevalue", JVal.int 0),
            ("buildingdata", JVal.obj []), ("champion", JVal.arr []),
            ("foo", JVal.int 1)] "points" = some (JVal.int 99) :=
  (mutate_request_body_is_whitelist_union BaseData.default
      [("foo", .int 1), ("points", .int 99)] (by decide) _ (by decide)).2.1
    "points" (.int 99) (by decide)

theorem mem_addCoord (owned : List (Int × Int)) (c c' : Int × Int) :
    c' ∈ addCoord owned c ↔ c' ∈ owned ∨ c' = c := by
  by_cases h : c ∈ owned
  · simp only [addCoord, if_pos h]
    constructor
    · exact Or.inl
    · rintro (hc | rfl)
      · exact hc
      · exact h
  · simp [addCoord, if_neg h]

/-- C7: within one conquest iteration every target in the target set is
attempted: a per-target exception is recorded as a failure and the loop
continues (successes plus failures exhaust the target list), the recorded
conquests are exactly the targets whose attack sequence succeeded, and a
coordinate joins the owned set exactly when it was already owned or some
target's successful attack sequence produced it. -/
theorem conquest_target_failures_are_isolated (atk : Target → Bool)
    (targets : List Target) (owned : List (Int × Int)) :
    (attackPhase atk targets owned).conquered +
        (attackPhase atk targets owned).failed = targets.length ∧
    (attackPhase atk targets owned).newlyConquered =
        targets.filter (fun t => (attackTarget atk t).isSome) ∧
    (∀ c, c ∈ (attackPhase atk targets owned).owned ↔
        c ∈ owned ∨ ∃ t ∈ targets, attackTarget atk t = some c) := by
  induction targets generalizing owned with
  | nil => simp [attackPhase]
  | cons t ts ih =>
      cases h : attackTarget atk t with
      | some c =>
          obtain ⟨ih1, ih2, ih3⟩ := ih (addCoord owned c)
          refine ⟨?_, ?_, ?_⟩
          · simp only [attackPhase, h]
            simp only [List.length_cons]
            omega
          · simp only [attackPhase, h, List.filter_cons]
            simp [h, ih2]
          · intro c'
            simp only [attackPhase, h]
            rw [ih3 c', mem_addCoord]
            simp only [List.mem_cons]
            constructor
            · rintro ((hc | rfl) | ⟨t', ht', hat⟩)
              · exact Or.inl hc
              · exact Or.inr ⟨t, Or.inl rfl, h⟩
              · exact Or.inr ⟨t', Or.inr ht', hat⟩
            · rintro (hc | ⟨t', (rfl | ht'), hat⟩)
              · exact Or.inl (Or.inl hc)
              · rw [h] at hat
                injection hat with hat
                exact Or.inl (Or.inr hat.symm)
              · exact Or.inr ⟨t', ht', hat⟩
      | none =>
          obtain ⟨ih1, ih2, ih3⟩ := ih owned
          refine ⟨?_, ?_, ?_⟩
          · simp only [attackPhase, h]
            simp only [List.length_cons]
            omega
          · simp only [attackPhase, h, List.filter_cons]
            simp [h, ih2]
          · intro c'
            simp only [attackPhase, h]
            rw [ih3 c']
            simp only [List.mem_cons]
            constructor
            · rintro (hc | ⟨t', ht', hat⟩)
              · exact Or.inl hc
              · exact Or.inr ⟨t', Or.inr ht', hat⟩
            · rintro (hc | ⟨t', (rfl | ht'), hat⟩)
              · exact Or.inl hc
              · rw [h] at hat; cases hat
              · exact Or.inr ⟨t', ht', hat⟩

theorem conquest_target_failures_are_isolated_witness :
    ((attackPhase (fun t => t.x == "3") [⟨.int 1, .str "a", .int 0, "3", "4", .int 0, .int 0⟩,
        ⟨.int 2, .str "b", .int 0, "x", "4", .int 0, .int 0⟩] []).conquered,
     (attackPhase (fun t => t.x == "3") [⟨.int 1, .str "a", .int 0, "3", "4", .int 0, .int 0⟩,
        ⟨.int 2, .str "b", .int 0, "x", "4", .int 0, .int 0⟩] []).failed) = (1, 1) := by
  have h := (conquest_target_failures_are_isolated (fun t => t.x == "3")
    [⟨.int 1, .str "a", .int 0, "3", "4", .int 0, .int 0⟩,
     ⟨.int 2, .str "b", .int 0, "x", "4", .int 0, .int 0⟩] []).1
  have h2 : (attackPhase (fun t => t.x == "3")
      [⟨.int 1, .str "a", .int 0, "3", "4", .int 0, .int 0⟩,
       ⟨.int 2, .str "b", .int 0, "x", "4", .int 0, .int 0⟩] []).conquered = 1 := by decide
  simp [h2] at h ⊢
  omega

/-- When every scan contributes no targets, the scan phase yields empty
deduplication dicts. -/
theorem scanPhase_empty (scan : Int × Int → ScanResp) (username : String)
    (includeWild : Bool) (owned : List (Int × Int))
    (h : ∀ c, scanOne (scan c) username includeWild = ([], [])) :
    scanPhase scan username includeWild owned = ([], []) := by
  suffices hgen : ∀ acc : List (JVal × Target) × List (JVal × Target),
      owned.foldl (fun acc coord =>
        let ew := scanOne (scan coord) username includeWild
        (addTargets acc.1 ew.1, addWild acc.2 ew.1 ew.2)) acc = acc by
    exact hgen ([], [])
  induction owned with
  | nil => intro acc; rfl
  | cons c cs ih =>
      intro acc
      rw [List.foldl_cons]
      have hstep : (let ew := scanOne (scan c) username includeWild
          (addTargets acc.1 ew.1, addWild acc.2 ew.1 ew.2)) = acc := by
        rw [h c]
        rfl
      rw [hstep]
      exact ih acc

/-- The loop counter never exceeds the iteration cap. -/
theorem conquerLoop_iterations_le (scan : Int × Int → ScanResp)
    (atk : Target → Bool) (username : String) (includeWild : Bool)
    (maxIterations : Nat) :
    ∀ n iteration owned totalConquered results,
      maxIterations - iteration ≤ n → iteration ≤ maxIterations →
      (conquerLoop scan atk username includeWild maxIterations owned
          totalConquered iteration results).iterations ≤ maxIterations := by
  intro n
  induction n with
  | zero =>
      intro iteration owned totalConquered results h1 h2
      have hge : ¬ iteration < maxIterations := by omega
      rw [conquerLoop, if_neg hge]
      exact h2
  | succ n ih =>
      intro iteration owned totalConquered results h1 h2
      rw [conquerLoop]
      by_cases hlt : iteration < maxIterations
      · rw [if_pos hlt]
        simp only []
        cases hsel : selectTargets
            (dictValues (scanPhase scan username includeWild owned).1)
            (dictValues (scanPhase scan username includeWild owned).2) with
        | none => simp [hsel]; omega
        | some chosen =>
            simp only [hsel]
            exact ih (iteration + 1) _ _ _ (by omega) (by omega)
      · rw [if_neg hlt]
        exact h2

/-- C8: a scan that never yields a player-enemy target nor a wild-monster
cell makes conquer_entire_map stop after exactly one iteration with a zero
conquest tally; and for any scan whatsoever the loop performs at most the
caller-supplied maximum number of iterations. -/
theorem conquest_terminates (scan : Int × Int → ScanResp)
    (atk : Target → Bool) (username : String) (includeWild : Bool)
    (mainBaseCoords : List (Int × Int)) (maxIterations : Nat) :
    ((∀ c, scanOne (scan c) username includeWild = ([], [])) →
      1 ≤ maxIterations →
      (conquerEntireMap scan atk username includeWild mainBaseCoords
          maxIterations).iterations = 1 ∧
      (conquerEntireMap scan atk username includeWild mainBaseCoords
          maxIterations).totalConquered = 0) ∧
    (conquerEntireMap scan atk username includeWild mainBaseCoords
        maxIterations).iterations ≤ maxIterations := by
  constructor
  · intro hempty hmax
    have hzero : 0 < maxIterations := hmax
    unfold conquerEntireMap
    rw [conquerLoop, if_pos hzero]
    simp only [scanPhase_empty scan username includeWild _ hempty]
    exact ⟨rfl, rfl⟩
  · exact conquerLoop_iterations_le scan atk username includeWild maxIterations
      maxIterations 0 _ 0 [] (by omega) (by omega)

theorem conquest_terminates_witness :
    (conquerEntireMap (fun _ => ScanResp.ok []) (fun _ => true) "bob" false
        [(360, 270)] 100).iterations = 1 ∧
    (conquerEntireMap (fun _ => ScanResp.ok []) (fun _ => true) "bob" false
        [(360, 270)] 100).totalConquered = 0 :=
  (conquest_terminates (fun _ => ScanResp.ok []) (fun _ => true) "bob" false
      [(360, 270)] 100).1 (fun _ => rfl) (by omega)

/-- C1 counterexample: the field "resources" is absent from the empty
response, yet reconciling that response into exBase resets the resources
structure to its dataclass defaults instead of retaining the prior local
value, refuting the merge invariant as claimed. -/
theorem merge_invariant_counterexample :
    lookup [] "resources" = none ∧
    (BaseData.updateFromDict exBase []).map (fun b => b.resources)
      = some Resources.default ∧
    exBase.resources ≠ Resources.default :=
  ⟨rfl, by decide, by decide⟩

/-- C1 (amended): update_from_dict is a merge on the plain (stored-verbatim)
fields: a value present in the response overwrites the local field and an
absent one retains the prior local value. The eleven parsed nested
structures are instead rebuilt from the response on every call: when their
key is absent, buildingdata, resources, iresources, aiattacks, stats,
lockerdata, academy, monsters and monsterbaiter are reset to the parse of
an empty dict (their defaults), while mushrooms and buildingresources are
rebuilt from the prior local values and hence retained. -/
theorem reconcile_merges_plain_fields_resets_parsed (b b' : BaseData)
    (data : List (String × JVal))
    (h : BaseData.updateFromDict b data = some b') :
    (∀ f : PlainField,
      (∀ v, lookup data (PlainField.key f) = some v → b'.getPlain f = v) ∧
      (lookup data (PlainField.key f) = none → b'.getPlain f = b.getPlain f)) ∧
    (lookup data "buildingdata" = none → b'.buildingdata = BuildingData.empty) ∧
    (lookup data "resources" = none → b'.resources = Resources.default) ∧
    (lookup data "iresources" = none → b'.iresources = Resources.default) ∧
    (lookup data "aiattacks" = none → b'.aiattacks = AIAttacks.default) ∧
    (lookup data "stats" = none → b'.stats = Stats.default) ∧
    (lookup data "lockerdata" = none → b'.lockerdata = []) ∧
    (lookup data "academy" = none → b'.academy = []) ∧
    (lookup data "monsters" = none → b'.monsters = MonsterData.default) ∧
    (lookup data "monsterbaiter" = none → b'.monsterbaiter = MonsterBaiter.default) ∧
    (lookup data "mushrooms" = none → b'.mushrooms = b.mushrooms) ∧
    (lookup data "buildingresources" = none →
        b'.buildingresources = b.buildingresources) := by
  simp only [BaseData.updateFromDict, bind, Option.bind_eq_some] at h
  obtain ⟨bdata, hbd, h⟩ := h
  obtain ⟨bres, hbres, h⟩ := h
  obtain ⟨res, hres, h⟩ := h
  obtain ⟨aia, haia, h⟩ := h
  obtain ⟨st, hst, h⟩ := h
  obtain ⟨lockers, hlock, h⟩ := h
  obtain ⟨acad, hacad, h⟩ := h
  obtain ⟨mon, hmon, h⟩ := h
  obtain ⟨mbait, hmbait, h⟩ := h
  obtain ⟨mush, hmush, h⟩ := h
  obtain ⟨ires, hires, h⟩ := h
  injection h with h
  subst h
  refine ⟨?_, ?_, ?_, ?_, ?_, ?_, ?_, ?_, ?_, ?_, ?_, ?_⟩
  · intro f
    cases f <;>
      exact ⟨fun v hv => by
               simp only [PlainField.key] at hv
               simp [BaseData.getPlain, getD, hv],
             fun hn => by
               simp only [PlainField.key] at hn
               simp [BaseData.getPlain, getD, hn]⟩
  · intro hn; rw [getD_of_lookup_none hn] at hbd
    exact (Option.some.inj hbd).symm
  · intro hn; rw [getD_of_lookup_none hn] at hres
    exact (Option.some.inj hres).symm
  · intro hn; rw [getD_of_lookup_none hn] at hires
    exact (Option.some.inj hires).symm
  · intro hn; rw [getD_of_lookup_none hn] at haia
    exact (Option.some.inj haia).symm
  · intro hn; rw [getD_of_lookup_none hn] at hst
    exact (Option.some.inj hst).symm
  · intro hn; rw [getD_of_lookup_none hn] at hlock
    exact (Option.some.inj hlock).symm
  · intro hn; rw [getD_of_lookup_none hn] at hacad
    exact (Option.some.inj hacad).symm
  · intro hn; rw [getD_of_lookup_none hn] at hmon
    exact (Option.some.inj hmon).symm
  · intro hn; rw [getD_of_lookup_none hn] at hmbait
    exact (Option.some.inj hmbait).symm
  · intro hn; rw [getD_of_lookup_none hn] at hmush
    exact (Option.some.inj hmush).symm
  · intro hn; rw [getD_of_lookup_none hn] at hbres
    exact (Option.some.inj hbres).symm

theorem reconcile_merges_plain_fields_resets_parsed_witness :
    BaseData.updateFromDict exBase [("points", JVal.int 7)] = some exMerged ∧
    exMerged.getPlain .points = .int 7 ∧
    exMerged.getPlain .basename = exBase.getPlain .basename ∧
    exMerged.resources = Resources.default := by
  have hup : BaseData.updateFromDict exBase [("points", JVal.int 7)]
      = some exMerged := by decide
  have h := reconcile_merges_plain_fields_resets_parsed exBase _ _ hup
  exact ⟨hup, (h.1 .points).1 _ (by decide), (h.1 .basename).2 (by decide),
         h.2.2.1 (by decide)⟩

/-! ## No-whitespace lemmas for the compact serializer -/

theorem strNoSpace_append (a b : String) :
    strNoSpace (a ++ b) = (strNoSpace a && strNoSpace b) := by
  simp [strNoSpace, String.data_append]

theorem hexDigit_no_space : ∀ k < 16, (hexDigit k != ' ') = true := by decide

theorem hex4_no_space (n : Nat) : strNoSpace (hex4 n) = true := by
  have h1 := hexDigit_no_space (n / 4096 % 16) (Nat.mod_lt _ (by norm_num))
  have h2 := hexDigit_no_space (n / 256 % 16) (Nat.mod_lt _ (by norm_num))
  have h3 := hexDigit_no_space (n / 16 % 16) (Nat.mod_lt _ (by norm_num))
  have h4 := hexDigit_no_space (n % 16) (Nat.mod_lt _ (by norm_num))
  simp [strNoSpace, hex4, h1, h2, h3, h4]

theorem escChar_no_space (c : Char) (h : (c != ' ') = true) :
    strNoSpace (escChar c) = true := by
  unfold escChar
  split_ifs <;>
    first
      | rfl
      | (simp only [strNoSpace_append, hex4_no_space, Bool.and_true]; rfl)
      | (simp [strNoSpace, h])

theorem escapeChars_no_space (cs : List Char)
    (h : cs.all (fun c => c != ' ') = true) :
    strNoSpace (escapeChars cs) = true := by
  induction cs with
  | nil => rfl
  | cons c cs ih =>
      simp only [List.all_cons, Bool.and_eq_true] at h
      simp [escapeChars, strNoSpace_append, escChar_no_space c h.1, ih h.2]

theorem escape_no_space (s : String) (h : s.data.all (fun c => c != ' ') = true) :
    strNoSpace (escape s) = true :=
  escapeChars_no_space s.data h

theorem digitChar_no_space (m : Nat) (h : m < 16) :
    (Nat.digitChar m != ' ') = true := by
  interval_cases m <;> decide

theorem toDigitsCore_no_space :
    ∀ (fuel n : Nat) (ds : List Char),
      ds.all (fun c => c != ' ') = true →
      (Nat.toDigitsCore 10 fuel n ds).all (fun c => c != ' ') = true := by
  intro fuel
  induction fuel with
  | zero => intro n ds hds; exact hds
  | succ fuel ih =>
      intro n ds hds
      rw [Nat.toDigitsCore]
      have hd : (Nat.digitChar (n % 10) != ' ') = true :=
        digitChar_no_space _ (by omega)
      by_cases h : n / 10 = 0
      · simp only [if_pos h, List.all_cons, Bool.and_eq_true]
        exact ⟨hd, hds⟩
      · simp only [if_neg h]
        exact ih _ _ (by simp [hd, hds])

theorem nat_repr_no_space (n : Nat) : strNoSpace (Nat.repr n) = true := by
  rw [Nat.repr]
  exact toDigitsCore_no_space (n + 1) n [] rfl

theorem int_toString_no_space (n : Int) : strNoSpace (toString n) = true := by
  cases n with
  | ofNat m => exact nat_repr_no_space m
  | negSucc m =>
      show strNoSpace ("-" ++ Nat.repr (m + 1)) = true
      rw [strNoSpace_append, nat_repr_no_space]
      rfl

mutual

theorem dumps_no_space : ∀ v : JVal, jvalNoSpace v = true →
    strNoSpace (dumps v) = true
  | .null, _ => rfl
  | .bool true, _ => rfl
  | .bool false, _ => rfl
  | .int n, _ => int_toString_no_space n
  | .str s, h => by
      rw [show dumps (.str s) = "\"" ++ escape s ++ "\"" from rfl]
      simp only [strNoSpace_append]
      rw [escape_no_space s (by simpa [jvalNoSpace] using h)]
      rfl
  | .arr xs, h => by
      rw [show dumps (.arr xs) = "[" ++ dumpsList xs ++ "]" from rfl]
      simp only [strNoSpace_append]
      rw [dumpsList_no_space xs (by simpa [jvalNoSpace] using h)]
      rfl
  | .obj fs, h => by
      rw [show dumps (.obj fs) = "\x7b" ++ dumpsObj fs ++ "\x7d" from rfl]
      simp only [strNoSpace_append]
      rw [dumpsObj_no_space fs (by simpa [jvalNoSpace] using h)]
      rfl

theorem dumpsList_no_space : ∀ xs : List JVal, jvalListNoSpace xs = true →
    strNoSpace (dumpsList xs) = true
  | [], _ => rfl
  | [x], h => by
      have hx : jvalNoSpace x = true := by
        simp only [jvalListNoSpace, Bool.and_eq_true] at h
        exact h.1
      rw [show dumpsList [x] = dumps x from rfl]
      exact dumps_no_space x hx
  | x :: y :: rest, h => by
      have hx : jvalNoSpace x = true := by
        simp only [jvalListNoSpace, Bool.and_eq_true] at h
        exact h.1
      have h2 : jvalListNoSpace (y :: rest) = true := by
        simp only [jvalListNoSpace, Bool.and_eq_true] at h ⊢
        exact h.2
      rw [show dumpsList (x :: y :: rest)
            = dumps x ++ "," ++ dumpsList (y :: rest) from rfl]
      simp only [strNoSpace_append]
      rw [dumps_no_space x hx, dumpsList_no_space (y :: rest) h2]
      rfl

theorem dumpsObj_no_space : ∀ fs : List (String × JVal), jvalObjNoSpace fs = true →
    strNoSpace (dumpsObj fs) = true
  | [], _ => rfl
  | [(k, v)], h => by
      have hk : k.data.all (fun c => c != ' ') = true := by
        simp only [jvalObjNoSpace, Bool.and_eq_true] at h
        exact h.1.1
      have hv : jvalNoSpace v = true := by
        simp only [jvalObjNoSpace, Bool.and_eq_true] at h
        exact h.1.2
      rw [show dumpsObj [(k, v)] = "\"" ++ escape k ++ "\":" ++ dumps v from rfl]
      simp only [strNoSpace_append]
      rw [escape_no_space k hk, dumps_no_space v hv]
      rfl
  | (k, v) :: p :: rest, h => by
      have hk : k.data.all (fun c => c != ' ') = true := by
        simp only [jvalObjNoSpace, Bool.and_eq_true] at h
        exact h.1.1
      have hv : jvalNoSpace v = true := by
        simp only [jvalObjNoSpace, Bool.and_eq_true] at h
        exact h.1.2
      have hrest : jvalObjNoSpace (p :: rest) = true := by
        simp only [jvalObjNoSpace, Bool.and_eq_true] at h ⊢
        exact h.2
      rw [show dumpsObj ((k, v) :: p :: rest)
            = "\"" ++ escape k ++ "\":" ++ dumps v ++ "," ++ dumpsObj (p :: rest) from rfl]
      simp only [strNoSpace_append]
      rw [escape_no_space k hk, dumps_no_space v hv,
          dumpsObj_no_space (p :: rest) hrest]
      rfl

end

/-- C5: the field encoder serializes any mapping or sequence value to
compact JSON text — whitespace-free whenever the value's own string
literals are — encodes the absence marker None as the literal string
"null", and stringifies any other scalar; in particular the example
mapping encodes to resources='\x7b"r1":5\x7d', points="10", flag="null". -/
theorem field_codec_encoding_asymmetry :
    (∀ fs : List (String × JVal), encodeField (.obj fs) = dumps (.obj fs)) ∧
    (∀ xs : List JVal, encodeField (.arr xs) = dumps (.arr xs)) ∧
    encodeField .null = "null" ∧
    (∀ n : Int, encodeField (.int n) = toString n) ∧
    (∀ s : String, encodeField (.str s) = s) ∧
    (∀ v : JVal, jvalNoSpace v = true → strNoSpace (dumps v) = true) ∧
    formEncode [("resources", .obj [("r1", .int 5)]), ("points", .int 10),
        ("flag", .null)] =
      [("resources", "\x7b\"r1\":5\x7d"), ("points", "10"), ("flag", "null")] :=
  ⟨fun _ => rfl, fun _ => rfl, rfl, fun _ => rfl, fun _ => rfl,
   dumps_no_space, by decide⟩

theorem field_codec_encoding_asymmetry_witness :
    strNoSpace (dumps (.obj [("r1", .int 5)])) = true :=
  field_codec_encoding_asymmetry.2.2.2.2.2.1 (.obj [("r1", .int 5)]) (by decide)
